import Mathlib

/-!
Verification development for the `gb_transformer` repository: a shallow
embedding of the Guidebook fetch/assemble stage (`guidebook.go`) and the
Watson transformation stage (`watson.go`), with theorems settling the
specification claims about them.

Conventions of the embedding:
* Go `map[int]T` becomes an association list `GBMap T` with shadowing
  insertion (`mapInsert` conses) and zero-value-on-miss lookup (`mapFindD`),
  matching Go's tolerant map reads.
* Go `time.Time` values produced by `time.Parse` with the repository's fixed
  layout (which carries no zone, so all parsed times are UTC) become `GoTime`
  civil records; instants are compared through `absNs`, nanoseconds on the
  Julian-day-number axis.  `time.Time.Sub` saturates at the `int64` bounds,
  modelled by `goSubNs`; Go integer division truncates toward zero, modelled
  by `goTdiv`.
* The HTTP transport is abstracted as a responder `Nat → HttpResp` giving the
  (already envelope-decoded) response to the n-th request of a pagination
  chain; the fetch loop itself (`multiFetchLoop`) mirrors `multiFetch`
  including the `goto retryAfterWait` retry, with fuel standing in for the
  possibility of an unbounded retry chain.
-/

/-- Characters the slug regexp `[^a-zA-Z0-9_]` keeps. -/
def goWordChar (c : Char) : Bool :=
  ('a' ≤ c && c ≤ 'z') || ('A' ≤ c && c ≤ 'Z') || ('0' ≤ c && c ≤ '9') || c = '_'

/-- The tag-value normalisation of `makeTag`:
`strings.ToLower(notAlphaNumeric.ReplaceAllLiteralString(strings.ReplaceAll(value, " ", "_"), ""))`.
Replacing the single-character pattern `" "` is per-character, and the regexp
strips characters outside `[a-zA-Z0-9_]`. -/
def slugValue (v : String) : String :=
  String.mk (((v.toList.map (fun c => if c = ' ' then '_' else c)).filter goWordChar).map Char.toLower)

/-- `strconv.Atoi` with the error discarded, as `multiFetch` uses it on the
`Retry-After` header: syntax errors yield 0, out-of-range values are clamped
to the `int64` bounds (Go's `Atoi` returns the clamped value with `ErrRange`,
and the caller ignores the error). -/
def goAtoi (s : String) : Int :=
  let withSign : Int × List Char :=
    match s.toList with
    | '+' :: r => (1, r)
    | '-' :: r => (-1, r)
    | r => (1, r)
  let ds := withSign.2
  if ds.isEmpty || !(ds.all Char.isDigit) then 0
  else
    let n : Nat := ds.foldl (fun a c => a * 10 + (c.toNat - 48)) 0
    let v : Int := withSign.1 * n
    if v > 9223372036854775807 then 9223372036854775807
    else if v < -9223372036854775808 then -9223372036854775808
    else v

/-- Go integer division truncates toward zero. -/
def goTdiv (a b : Int) : Int :=
  a.sign * b.sign * (a.natAbs / b.natAbs : Nat)

/-- `math.MaxInt64`, the saturation bound of `time.Duration`. -/
def INT64_MAX : Int := 9223372036854775807

/-- `math.MinInt64`, the saturation bound of `time.Duration`. -/
def INT64_MIN : Int := -9223372036854775808

/-- A Go `map[int]T`, as an association list where insertion shadows. -/
abbrev GBMap (α : Type) : Type := List (Int × α)

/-- Go map read returning `Option`. -/
def mapFind? {α : Type} (m : GBMap α) (k : Int) : Option α :=
  (List.find? (fun p => p.1 == k) m).map (fun p => p.2)

/-- Go map read: the zero value `d` on a missing key. -/
def mapFindD {α : Type} (m : GBMap α) (k : Int) (d : α) : α :=
  (mapFind? m k).getD d

/-- Go map write: later writes shadow earlier ones. -/
def mapInsert {α : Type} (m : GBMap α) (k : Int) (v : α) : GBMap α :=
  (k, v) :: m

/-- The key/value pairs of a Go map, one per live key (shadowed entries
dropped).  Iteration order of a Go map is unspecified; this picks one. -/
def mapEntries {α : Type} (m : GBMap α) : List (Int × α) :=
  ((m.map (fun p => p.1)).dedup).filterMap (fun k => (mapFind? m k).map (fun v => (k, v)))

/-- A civil UTC time as produced by `time.Parse` with the repository's
zone-less layout. -/
structure GoTime where
  year : Nat
  month : Nat
  day : Nat
  hour : Nat
  minute : Nat
  second : Nat
  nanos : Nat
  deriving Repr, DecidableEq

/-- Gregorian leap-year test, as in Go's `time` package. -/
def goIsLeap (y : Nat) : Bool :=
  y % 4 = 0 && (y % 100 ≠ 0 || y % 400 = 0)

/-- Days in a month, as Go's `Parse` uses to validate the day field. -/
def goDaysIn (y m : Nat) : Nat :=
  if m = 2 then (if goIsLeap y then 29 else 28)
  else if m = 4 ∨ m = 6 ∨ m = 9 ∨ m = 11 then 30
  else 31

/-- Julian day number of a proleptic-Gregorian civil date (valid for the
four-digit years the layout admits). -/
def civilJDN (y m d : Nat) : Nat :=
  let a := (14 - m) / 12
  let ym := y + 4800 - a
  let mm := m + 12 * a - 3
  d + (153 * mm + 2) / 5 + 365 * ym + ym / 4 - ym / 100 + ym / 400 - 32045

/-- The instant of a parsed (UTC) time, as nanoseconds on the JDN axis; only
differences of these are ever used, so the epoch is immaterial. -/
def absNs (t : GoTime) : Int :=
  ((civilJDN t.year t.month t.day : Int) * 86400
    + t.hour * 3600 + t.minute * 60 + t.second) * 1000000000 + t.nanos

/-- `time.Time.Sub`: the exact difference, saturated at the `int64` bounds
of `time.Duration`. -/
def goSubNs (t u : GoTime) : Int :=
  let d := absNs t - absNs u
  if d > INT64_MAX then INT64_MAX else if d < INT64_MIN then INT64_MIN else d

/-- Read exactly `n` decimal digits. -/
def readDigits : Nat → Nat → List Char → Option (Nat × List Char)
  | 0, acc, cs => some (acc, cs)
  | n + 1, acc, c :: cs =>
      if c.isDigit then readDigits n (acc * 10 + (c.toNat - 48)) cs else none
  | _ + 1, _, [] => none

/-- Consume one expected literal character. -/
def expectCh (c : Char) : List Char → Option (List Char)
  | x :: xs => if x = c then some xs else none
  | [] => none

/-- Numeric value of a digit run. -/
def digitsVal (ds : List Char) : Nat :=
  ds.foldl (fun a c => a * 10 + (c.toNat - 48)) 0

/-- `time.Parse(GUIDEBOOK_TIME_FORMAT, s)` for
`GUIDEBOOK_TIME_FORMAT = "2006-01-02T15:04:05.999999+0000"`.
The `+0000` run matches no layout chunk, so it is a literal and the layout
carries no zone: parsed times are UTC.  The `.999999` fraction is optional,
must be 1–9 digits when present, and the parsed fields are range-checked the
way Go's `Parse` checks them. -/
def parseGuidebookTime (s : String) : Option GoTime := do
  let cs := s.toList
  let (y, cs) ← readDigits 4 0 cs
  let cs ← expectCh '-' cs
  let (mo, cs) ← readDigits 2 0 cs
  let cs ← expectCh '-' cs
  let (d, cs) ← readDigits 2 0 cs
  let cs ← expectCh 'T' cs
  let (h, cs) ← readDigits 2 0 cs
  let cs ← expectCh ':' cs
  let (mi, cs) ← readDigits 2 0 cs
  let cs ← expectCh ':' cs
  let (sec, cs) ← readDigits 2 0 cs
  let (ns, cs) ←
    match cs with
    | '.' :: rest =>
        let ds := rest.takeWhile Char.isDigit
        if ds.length = 0 ∨ ds.length > 9 then none
        else some (digitsVal ds * 10 ^ (9 - ds.length), rest.drop ds.length)
    | other => some (0, other)
  match cs with
  | ['+', '0', '0', '0', '0'] =>
      if 1 ≤ mo ∧ mo ≤ 12 ∧ 1 ≤ d ∧ d ≤ goDaysIn y mo ∧ h ≤ 23 ∧ mi ≤ 59 ∧ sec ≤ 59
      then some ⟨y, mo, d, h, mi, sec, ns⟩ else none
  | _ => none

/-- Zero-pad a numeral to width `w`. -/
def padNum (w n : Nat) : String :=
  let s := toString n
  String.mk (List.replicate (w - s.length) '0') ++ s

/-- Strip trailing `'0'` characters (Go's trimmed fractional second). -/
def trimTrailZeros (s : String) : String :=
  String.mk (((s.toList.reverse).dropWhile (fun c => c = '0')).reverse)

/-- The fractional part printed by the `.999` layout chunk: milliseconds
truncated from the nanoseconds, trailing zeros removed, the dot omitted when
nothing remains. -/
def fracString (nanos : Nat) : String :=
  let ms := nanos / 1000000
  if ms = 0 then "" else "." ++ trimTrailZeros (padNum 3 ms)

/-- `t.Format(WATSON_TIME_FORMAT)` for
`WATSON_TIME_FORMAT = "2006-01-02T15:04:05.999Z07:00"` on the UTC times this
program produces (`Z07:00` renders as `"Z"` at offset zero). -/
def formatWatsonTime (t : GoTime) : String :=
  padNum 4 t.year ++ "-" ++ padNum 2 t.month ++ "-" ++ padNum 2 t.day ++ "T"
    ++ padNum 2 t.hour ++ ":" ++ padNum 2 t.minute ++ ":" ++ padNum 2 t.second
    ++ fracString t.nanos ++ "Z"

/-- `GuidebookSession` (the JSON-decoded session record).  The `float64`
field `Rank`, unused by any claim, is carried as an integer placeholder. -/
structure GuidebookSession where
  ID : Int
  Name : String
  Description : String
  StartTime : String
  EndTime : String
  AllowRating : Bool
  AddToScheduleEnable : Bool
  AllDay : Bool
  Image : String
  ModeratorNotes : String
  Locations : List Int
  ScheduleTracks : List Int
  deriving Repr, DecidableEq

/-- `CustomList`. -/
structure CustomList where
  ID : Int
  Name : String
  Items : List Int
  deriving Repr, DecidableEq

/-- `ListItem`. -/
structure ListItem where
  ID : Int
  Name : String
  Subtitle : String
  Thumbnail : String
  Descripion : String
  CustomLists : List Int
  Image : String
  deriving Repr, DecidableEq

/-- `CatLink` (the `float64` `Rank` and `any` `Category` fields, unused by
any claim, are dropped). -/
structure CatLink where
  ID : Int
  Name : String
  SourceType : String
  TargetType : String
  SourceID : Int
  TargetID : Int
  CategoryID : Int
  deriving Repr, DecidableEq

/-- `SessionLink`. -/
structure SessionLink where
  TargetType : String
  TargetID : Int
  deriving Repr, DecidableEq

/-- `SessionList`. -/
structure SessionList where
  SessionID : Int
  TargetIDs : GBMap SessionLink

/-- `WebView` (the Go field `Type` is renamed `WvType`, `Type` being a Lean
keyword). -/
structure WebView where
  ID : Int
  Name : String
  WvType : String
  URL : String
  HtmlFile : String
  deriving Repr, DecidableEq

def GB_TARGET_TYPE_PERSON : String := "custom_list.customlistitem"

def GB_TARGET_TYPE_STREAM : String := "uri_resource.webview"

def GUESTS_OF_HONOR_ID : Int := 1153959

/-- `GuideBook`, the assembled snapshot (the `conf` field carries no data
relevant to the transform and is dropped). -/
structure GuideBook where
  Sessions : List GuidebookSession
  Locations : GBMap String
  SessionLinks : GBMap SessionList
  OtherLinks : GBMap (List CatLink)
  Lists : GBMap CustomList
  ListItems : GBMap ListItem
  Tracks : GBMap String
  GuestsOfHonor : GBMap String
  WebViews : GBMap WebView

/-- `Tag`. -/
structure Tag where
  Label : String
  Value : String
  Category : String
  deriving Repr, DecidableEq

/-- `Links`, the per-session deep-link bundle. -/
structure Links where
  Session : String := ""
  Stage : String := ""
  Replay : String := ""
  Chat : String := ""
  deriving Repr, DecidableEq

/-- `Person`. -/
structure Person where
  ID : Int
  Name : String
  Role : String := ""
  deriving Repr, DecidableEq

/-- `WatsonSession`, including the unexported classification flags. -/
structure WatsonSession where
  ID : Int
  Locations : List String
  Name : String
  Description : String
  StartTime : String
  DurationMinutes : Int
  Format : String
  Tags : List Tag
  Links : Links
  People : List Person
  in_person : Bool
  virtual : Bool
  deriving Repr, DecidableEq

def WATSON_TIME_FORMAT : String := "2006-01-02T15:04:05.999Z07:00"

def VIRTUAL_ROOM_1 : Int := 5074259

def VIRTUAL_ROOM_2 : Int := 5074260

/-- `makeTag`. -/
def makeTag (label value category : String) : Tag :=
  { Label := label, Value := slugValue value, Category := category }

/-- The zero value of `CustomList`, what a Go read of a missing key yields. -/
def goZeroCustomList : CustomList := { ID := 0, Name := "", Items := [] }

/-- The zero value of `ListItem`. -/
def goZeroListItem : ListItem :=
  { ID := 0, Name := "", Subtitle := "", Thumbnail := "", Descripion := "", CustomLists := [], Image := "" }

/-- The tag `BuildSessionTags` emits for one track id:
`makeTag(gb.Tracks[st], "track_"+gb.Tracks[st], "Track")`. -/
def trackTagOf (gb : GuideBook) (st : Int) : Tag :=
  makeTag (mapFindD gb.Tracks st "") ("track_" ++ mapFindD gb.Tracks st "") "Track"

/-- The `gb.Tracks[st] == "virtual"` test of `BuildSessionTags`. -/
def isVirtualTrack (gb : GuideBook) (st : Int) : Bool :=
  mapFindD gb.Tracks st "" == "virtual"

/-- The `loc == VIRTUAL_ROOM_1 || loc == VIRTUAL_ROOM_2` test of
`BuildSessionTags`. -/
def isSentinelLoc (loc : Int) : Bool :=
  loc == VIRTUAL_ROOM_1 || loc == VIRTUAL_ROOM_2

/-- `makeTag("In Person Session", "session_in_person", "Environment")`. -/
def inPersonTag : Tag := makeTag "In Person Session" "session_in_person" "Environment"

/-- `makeTag("Virtual Session", "session_virtual", "Environment")`. -/
def virtualTag : Tag := makeTag "Virtual Session" "session_virtual" "Environment"

/-- One step of the `ScheduleTracks` loop of `BuildSessionTags`: append the
track tag, and flag the session virtual when the resolved track name is
`"virtual"`. -/
def trackStep (gb : GuideBook) (ws : WatsonSession) (st : Int) : WatsonSession :=
  let ws := { ws with Tags := ws.Tags ++ [trackTagOf gb st] }
  if isVirtualTrack gb st then { ws with virtual := true } else ws

/-- One step of the `Locations` loop of `BuildSessionTags`: a virtual-room
sentinel id flags virtual, anything else flags in-person. -/
def locStep (ws : WatsonSession) (loc : Int) : WatsonSession :=
  if isSentinelLoc loc then { ws with virtual := true }
  else { ws with in_person := true }

/-- `(*WatsonSession).BuildSessionTags`. -/
def BuildSessionTags (ws : WatsonSession) (gs : GuidebookSession) (gb : GuideBook) : WatsonSession :=
  let ws := { ws with Tags := [] }
  let ws := gs.ScheduleTracks.foldl (trackStep gb) ws
  let ws := gs.Locations.foldl locStep ws
  let ws := if ws.in_person then { ws with Tags := ws.Tags ++ [inPersonTag] } else ws
  if ws.virtual then { ws with Tags := ws.Tags ++ [virtualTag] } else ws

/-- `(*WatsonSession).BuildSessionLinks`: the session deep link only for
virtual sessions, the chat deep link unconditionally. -/
def BuildSessionLinks (ws : WatsonSession) : WatsonSession :=
  let ws := if ws.virtual then { ws with Links := { ws.Links with Session := "https://virtual.seattlein2025.org/deep-link/session?item_id=" ++ toString ws.ID } } else ws
  { ws with Links := { ws.Links with Chat := "https://virtual.seattlein2025.org/deep-link/chat?item_id=" ++ toString ws.ID } }

/-- The fresh `WatsonSession` literal at the top of the loop of
`WatsonFromGuidebook`. -/
def freshWatson (gs : GuidebookSession) : WatsonSession :=
  { ID := gs.ID, Locations := [], Name := gs.Name, Description := gs.Description,
    StartTime := gs.StartTime, DurationMinutes := 0, Format := "", Tags := [],
    Links := {}, People := [], in_person := false, virtual := false }

/-- The people-resolution block of `WatsonFromGuidebook`: targets of the
session's link multimap whose type denotes a person, resolved through the
list-item map, with the Guest of Honor role when the id is in that map. -/
def addPeople (gb : GuideBook) (ws : WatsonSession) : WatsonSession :=
  match mapFind? gb.SessionLinks ws.ID with
  | none => ws
  | some sl =>
      { ws with People := (mapEntries sl.TargetIDs).filterMap (fun e =>
          if e.2.TargetType == GB_TARGET_TYPE_PERSON then
            some { ID := e.2.TargetID,
                   Name := (mapFindD gb.ListItems e.2.TargetID goZeroListItem).Name,
                   Role := if (mapFind? gb.GuestsOfHonor e.2.TargetID).isSome then "Guest of Honor" else "" }
          else none) }

/-- The body of the per-session loop of `WatsonFromGuidebook` after both
timestamps parsed: locations (with the `"Discord"` fallback), reformatted
start, truncated duration, people, tags, the in-person default for
unclassified sessions, and the link bundle. -/
def assembleWatson (gb : GuideBook) (gs : GuidebookSession) (start finish : GoTime) : WatsonSession :=
  let ws := freshWatson gs
  let ws := { ws with Locations := gs.Locations.map (fun loc => mapFindD gb.Locations loc "") }
  let ws := if ws.Locations.isEmpty then { ws with Locations := ["Discord"] } else ws
  let ws := { ws with StartTime := formatWatsonTime start,
                      DurationMinutes := goTdiv (goSubNs finish start) 60000000000 }
  let ws := addPeople gb ws
  let ws := BuildSessionTags ws gs gb
  let ws := if !(ws.in_person || ws.virtual) then { ws with in_person := true } else ws
  BuildSessionLinks ws

/-- One iteration of `WatsonFromGuidebook`: a timestamp that fails to parse
aborts the transform (the error carries the offending string). -/
def transformSession (gb : GuideBook) (gs : GuidebookSession) : Except String WatsonSession :=
  match parseGuidebookTime gs.StartTime with
  | none => .error gs.StartTime
  | some start =>
      match parseGuidebookTime gs.EndTime with
      | none => .error gs.EndTime
      | some finish => .ok (assembleWatson gb gs start finish)

/-- The loop of `WatsonFromGuidebook` over the sessions in input order,
stopping at the first parse failure. -/
def transformAll (gb : GuideBook) : List GuidebookSession → Except String (List WatsonSession)
  | [] => .ok []
  | gs :: rest => do
      let ws ← transformSession gb gs
      let tail ← transformAll gb rest
      .ok (ws :: tail)

/-- Go's bytewise-lexicographic string `<`, used by the final `sort.Slice`
comparator `watson[i].StartTime < watson[j].StartTime`; on the ASCII strings
this program formats, byte order and character order coincide. -/
def goStrLt : List Char → List Char → Bool
  | [], [] => false
  | [], _ :: _ => true
  | _ :: _, [] => false
  | a :: as, b :: bs => if a < b then true else if b < a then false else goStrLt as bs

/-- The postcondition order of that sort: position `i` before position `j`
means `¬(watson[j].StartTime < watson[i].StartTime)`. -/
def wle (a b : WatsonSession) : Prop :=
  goStrLt b.StartTime.toList a.StartTime.toList = false

instance : DecidableRel wle :=
  fun a b => inferInstanceAs (Decidable (goStrLt b.StartTime.toList a.StartTime.toList = false))

/-- `WatsonFromGuidebook`: transform every session, then sort by the
reformatted start-time string. -/
def WatsonFromGuidebook (gb : GuideBook) : Except String (List WatsonSession) :=
  (transformAll gb gb.Sessions).map (List.insertionSort wle)

/-- The condition under which `WatsonFromGuidebook` logs the
neither-virtual-nor-in-person warning for a session (the flags depend only on
the session's tracks and locations, so the fresh record suffices). -/
def sessionWarned (gb : GuideBook) (gs : GuidebookSession) : Bool :=
  let r := BuildSessionTags (freshWatson gs) gs gb
  !(r.in_person || r.virtual)

/-- One page response as `multiFetch` sees it after transport: the HTTP
status, the `Retry-After` header value (`""` when absent), the raw body, and
the decoded `MultiResponse` envelope (`decodeOk` false models a JSON decode
failure; `results` are the raw result objects, abstracted as strings). -/
structure HttpResp where
  status : Nat
  retryAfterHeader : String
  body : String
  decodeOk : Bool
  results : List String
  next : String

/-- Observable side effects of the fetch loop, in order: a request issued to
a URL, the rate-limit backoff sleep (in seconds), and the header dump logged
on an unusable 429. -/
inductive FetchEvent where
  | request : String → FetchEvent
  | sleepSeconds : Int → FetchEvent
  | dumpHeaders : FetchEvent
  deriving Repr, DecidableEq

/-- An error escaping `multiFetch`: a non-200 status with the response body
attached, or an envelope decode failure. -/
inductive FetchErr where
  | badStatus : Nat → String → FetchErr
  | decodeFail : String → FetchErr
  deriving Repr, DecidableEq

/-- The event trace and the cross-call successful-request counter
(`guideBookRequestCounter`). -/
structure FetchState where
  events : List FetchEvent
  counter : Nat
  deriving Repr, DecidableEq

/-- The `for nextURL != ""` loop of `multiFetch`, driven by a responder
giving the reply to the k-th request of the chain.  The `goto
retryAfterWait` on a 429 with a positive `Retry-After` re-enters the loop
body with the same URL and accumulator; `fuel` bounds the number of loop
entries (`none` = fuel exhausted, standing in for an unbounded retry chain).
The counter is incremented only after a 200, before envelope decoding. -/
def multiFetchLoop (respond : Nat → HttpResp) :
    Nat → String → List String → Nat → FetchState →
    Option (Except FetchErr (List String) × FetchState)
  | 0, _, _, _, _ => none
  | fuel + 1, url, acc, k, st =>
    if url = "" then some (.ok acc, st)
    else
      let r := respond k
      let st1 : FetchState := { st with events := st.events ++ [.request url] }
      if r.status ≠ 200 then
        if r.status = 429 ∧ goAtoi r.retryAfterHeader > 0 then
          multiFetchLoop respond fuel url acc (k + 1)
            { st1 with events := st1.events ++ [.sleepSeconds (goAtoi r.retryAfterHeader + 1)] }
        else if r.status = 429 then
          some (.error (.badStatus r.status r.body),
                { st1 with events := st1.events ++ [.dumpHeaders] })
        else
          some (.error (.badStatus r.status r.body), st1)
      else
        let st2 : FetchState := { st1 with counter := st1.counter + 1 }
        if r.decodeOk then
          multiFetchLoop respond fuel r.next (acc ++ r.results) (k + 1) st2
        else
          some (.error (.decodeFail r.body), st2)

/-- An error returned by one assembly step of `loadGuidebook`, wrapped with
that step's context string by `fmt.Errorf("...: %w", err)`. -/
structure WrappedErr where
  context : String
  cause : FetchErr
  deriving Repr, DecidableEq

/-- The outcome each fetch step of `loadGuidebook` would produce, abstracting
the HTTP/JSON transport behind the step. -/
structure FetchOutcomes where
  sessions : Except FetchErr (List GuidebookSession)
  locations : Except FetchErr (GBMap String)
  tracks : Except FetchErr (GBMap String)
  lists : Except FetchErr (GBMap CustomList × GBMap ListItem)
  links : Except FetchErr (GBMap SessionList × GBMap (List CatLink))

/-- The guests-of-honor map built at the end of `loadGuidebook`: the
well-known list's member ids resolved through the list-item map. -/
def buildGuestsOfHonor (lists : GBMap CustomList) (items : GBMap ListItem) : GBMap String :=
  (mapFindD lists GUESTS_OF_HONOR_ID goZeroCustomList).Items.foldl
    (fun m goh => mapInsert m goh (mapFindD items goh goZeroListItem).Name) []

/-- The fully assembled snapshot of a successful `loadGuidebook` run. -/
def mkSnapshot (ss : List GuidebookSession) (locs trks : GBMap String)
    (ls : GBMap CustomList × GBMap ListItem)
    (lk : GBMap SessionList × GBMap (List CatLink)) : GuideBook :=
  { Sessions := ss, Locations := locs, Tracks := trks,
    Lists := ls.1, ListItems := ls.2,
    SessionLinks := lk.1, OtherLinks := lk.2,
    GuestsOfHonor := buildGuestsOfHonor ls.1 ls.2,
    WebViews := [] }

/-- `loadGuidebook`: run the five assembly steps in source order, wrapping a
failing step's error with that step's context and stopping there. -/
def loadGuidebook (o : FetchOutcomes) : Except WrappedErr GuideBook :=
  match o.sessions with
  | .error e => .error ⟨"failed to load sessions from GuideBook", e⟩
  | .ok ss =>
  match o.locations with
  | .error e => .error ⟨"failed to load session locations from GuideBook", e⟩
  | .ok locs =>
  match o.tracks with
  | .error e => .error ⟨"failed to load schedule tracks from GuideBook", e⟩
  | .ok trks =>
  match o.lists with
  | .error e => .error ⟨"failed to load lists and listitems from GuideBook", e⟩
  | .ok ls =>
  match o.links with
  | .error e => .error ⟨"failed to load session links from GuideBook", e⟩
  | .ok lk => .ok (mkSnapshot ss locs trks ls lk)

/-- The `customLists` decode loop of `FetchLists`: key each decoded list by
its id. -/
def buildListsMap (cls : List CustomList) : GBMap CustomList :=
  cls.foldl (fun m cl => mapInsert m cl.ID cl) []

/-- The inner loop of the membership inversion of `FetchLists`: append the
item id to each list the item claims membership of (a missing list key reads
as the zero `CustomList`). -/
def invertItemStep (idv : Int) (m : GBMap CustomList) (w : Int) : GBMap CustomList :=
  let list := mapFindD m w goZeroCustomList
  mapInsert m w { list with Items := list.Items ++ [idv] }

/-- The membership-inversion loop of `FetchLists`, iterating the list-item
map's entries in some (unspecified) order. -/
def invertMembership (entries : List (Int × ListItem)) (m : GBMap CustomList) : GBMap CustomList :=
  entries.foldl (fun m e => e.2.CustomLists.foldl (invertItemStep e.1) m) m

/-- The `Lists` map `FetchLists` leaves in the snapshot, given the decoded
custom lists and an enumeration of the decoded item map. -/
def fetchListsResult (cls : List CustomList) (entries : List (Int × ListItem)) : GBMap CustomList :=
  invertMembership entries (buildListsMap cls)

/-- A snapshot with no sessions and empty lookup maps, the base for the
concrete instances below. -/
def emptyGB : GuideBook := ⟨[], [], [], [], [], [], [], [], []⟩

/-- A session record with the fields the transform never reads zeroed. -/
def mkSession (id : Int) (st en : String) (locs trks : List Int) : GuidebookSession :=
  { ID := id, Name := "", Description := "", StartTime := st, EndTime := en,
    AllowRating := false, AddToScheduleEnable := false, AllDay := false,
    Image := "", ModeratorNotes := "", Locations := locs, ScheduleTracks := trks }

/-- A snapshot whose one session has a single physical location and a track
that resolves to the name `"virtual"`. -/
def gbTrackVirtual : GuideBook :=
  { emptyGB with
      Sessions := [mkSession 1 "2025-08-31T10:00:00.0+0000" "2025-08-31T11:00:00.0+0000" [100] [7]],
      Locations := [(100, "Room A")],
      Tracks := [(7, "virtual")] }

/-- A session with no location ids and no track ids. -/
def gsNoLoc : GuidebookSession :=
  mkSession 1 "2025-08-31T10:00:00.0+0000" "2025-08-31T11:00:00.0+0000" [] []

/-- A snapshot whose one session has no location ids and no track ids. -/
def gbNoLocations : GuideBook := { emptyGB with Sessions := [gsNoLoc] }

/-- A snapshot with two sessions in the same second whose fractional seconds
differ: `.0` formats without a fraction, `.5` with one. -/
def gbFractional : GuideBook :=
  { emptyGB with
      Sessions := [mkSession 1 "2025-08-31T10:00:00.0+0000" "2025-08-31T11:00:00.0+0000" [100] [],
                   mkSession 2 "2025-08-31T10:00:00.5+0000" "2025-08-31T11:00:00.0+0000" [100] []],
      Locations := [(100, "Room A")] }

/-- A snapshot whose one session spans almost ten thousand years, past the
`int64` range of `time.Duration`. -/
def gbHugeSpan : GuideBook :=
  { emptyGB with
      Sessions := [mkSession 1 "0001-01-01T00:00:00.0+0000" "9999-12-31T23:59:59.0+0000" [100] []],
      Locations := [(100, "Room A")] }

/-- A snapshot whose one session ends thirty seconds before it starts. -/
def gbEndBeforeStart : GuideBook :=
  { emptyGB with
      Sessions := [mkSession 1 "2025-08-31T10:00:30.0+0000" "2025-08-31T10:00:00.0+0000" [100] []],
      Locations := [(100, "Room A")] }

/-- A session running 32.5 minutes in a physical room (the spec's duration
example). -/
def gsHalfHour : GuidebookSession :=
  mkSession 1 "2025-08-31T10:00:00.0+0000" "2025-08-31T10:32:30.0+0000" [100] []

/-- A snapshot whose one session runs 32.5 minutes in a physical room. -/
def gbHalfHour : GuideBook :=
  { emptyGB with Sessions := [gsHalfHour], Locations := [(100, "Room A")] }

/-- A session that ends ninety seconds before it starts. -/
def gsMinus90 : GuidebookSession :=
  mkSession 1 "2025-08-31T10:01:30.0+0000" "2025-08-31T10:00:00.0+0000" [100] []

/-- A snapshot whose one session ends ninety seconds before it starts. -/
def gbMinus90 : GuideBook :=
  { emptyGB with Sessions := [gsMinus90], Locations := [(100, "Room A")] }

/-- A session whose only location id is the first virtual-room sentinel. -/
def gsVirtualOnly : GuidebookSession :=
  mkSession 1 "2025-08-31T10:00:00.0+0000" "2025-08-31T11:00:00.0+0000" [VIRTUAL_ROOM_1] []

/-- A snapshot whose one session has only the first virtual-room sentinel as
location. -/
def gbOnlyVirtualRoom : GuideBook := { emptyGB with Sessions := [gsVirtualOnly] }

/-- A session in a physical room on track 7. -/
def gsArtCraft : GuidebookSession :=
  mkSession 1 "2025-08-31T10:00:00.0+0000" "2025-08-31T11:00:00.0+0000" [100] [7]

/-- A snapshot whose one session has a track resolving to `"Art & Craft"`. -/
def gbArtCraft : GuideBook :=
  { emptyGB with Sessions := [gsArtCraft], Locations := [(100, "Room A")],
                 Tracks := [(7, "Art & Craft")] }

/-- The instant of the (original, upstream-format) start time of the session
with the given id, 0 when absent or unparseable. -/
def startInstantOfId (gb : GuideBook) (i : Int) : Int :=
  match gb.Sessions.find? (fun gs => gs.ID == i) with
  | some gs =>
      match parseGuidebookTime gs.StartTime with
      | some t => absNs t
      | none => 0
  | none => 0

/-- The parsed start instants of the transformed output, in output order. -/
def outputStartInstants (gb : GuideBook) : List Int :=
  match WatsonFromGuidebook gb with
  | .ok out => out.map (fun ws => startInstantOfId gb ws.ID)
  | .error _ => []

/-- The transformed record of `gbHalfHour`'s one session. -/
def wsHalfHour : WatsonSession :=
  { ID := 1, Locations := ["Room A"], Name := "", Description := "",
    StartTime := "2025-08-31T10:00:00Z", DurationMinutes := 32, Format := "",
    Tags := [inPersonTag],
    Links := { Session := "", Stage := "", Replay := "",
               Chat := "https://virtual.seattlein2025.org/deep-link/chat?item_id=1" },
    People := [], in_person := true, virtual := false }

/-- A responder that rate-limits the first request with `Retry-After: 2` and
serves the single page on the retry. -/
def respondRetryOnce (k : Nat) : HttpResp :=
  if k = 0 then
    { status := 429, retryAfterHeader := "2", body := "slow down",
      decodeOk := true, results := [], next := "" }
  else
    { status := 200, retryAfterHeader := "", body := "",
      decodeOk := true, results := ["a"], next := "" }

/-- Step outcomes whose very first step (sessions) fails. -/
def outcomesSessionsFail : FetchOutcomes :=
  { sessions := .error (.badStatus 500 "boom"),
    locations := .ok [], tracks := .ok [],
    lists := .ok ([], []), links := .ok ([], []) }

/-- A list item that belongs to custom list 10 only. -/
def itemA : ListItem :=
  { goZeroListItem with ID := 1, Name := "A", CustomLists := [10] }

/-- Another list item that belongs to custom list 10 only. -/
def itemB : ListItem :=
  { goZeroListItem with ID := 2, Name := "B", CustomLists := [10] }

/-- A decoded custom list 10 with no directly-listed items. -/
def listTen : CustomList := { ID := 10, Name := "L", Items := [] }

/-- An enumeration of a decoded item map holding `itemA` and `itemB`. -/
def entriesAB : List (Int × ListItem) := [(1, itemA), (2, itemB)]

/-- The same enumeration in the opposite order. -/
def entriesBA : List (Int × ListItem) := [(2, itemB), (1, itemA)]

/-- The people list `WatsonFromGuidebook` attaches to session `i` (empty when
the session has no link-multimap entry, as the fresh record's list then
survives). -/
def watsonPeople (gb : GuideBook) (i : Int) : List Person :=
  match mapFind? gb.SessionLinks i with
  | none => []
  | some sl =>
      (mapEntries sl.TargetIDs).filterMap (fun e =>
        if e.2.TargetType == GB_TARGET_TYPE_PERSON then
          some { ID := e.2.TargetID,
                 Name := (mapFindD gb.ListItems e.2.TargetID goZeroListItem).Name,
                 Role := if (mapFind? gb.GuestsOfHonor e.2.TargetID).isSome then "Guest of Honor" else "" }
        else none)

theorem mapFind?_insert_self {α : Type} (m : GBMap α) (k : Int) (v : α) :
    mapFind? (mapInsert m k v) k = some v := by
  simp [mapFind?, mapInsert, List.find?_cons]

theorem mapFind?_insert_ne {α : Type} (m : GBMap α) (k k' : Int) (v : α) (h : k' ≠ k) :
    mapFind? (mapInsert m k v) k' = mapFind? m k' := by
  simp only [mapFind?, mapInsert, List.find?_cons]
  have : ((k, v).1 == k') = false := by
    simpa using (Ne.symm h)
  rw [this]

theorem mapFindD_insert_self {α : Type} (m : GBMap α) (k : Int) (v d : α) :
    mapFindD (mapInsert m k v) k d = v := by
  simp [mapFindD, mapFind?_insert_self]

theorem mapFindD_insert_ne {α : Type} (m : GBMap α) (k k' : Int) (v d : α) (h : k' ≠ k) :
    mapFindD (mapInsert m k v) k' d = mapFindD m k' d := by
  simp [mapFindD, mapFind?_insert_ne _ _ _ _ h]

theorem mapFind?_mem {α : Type} {m : GBMap α} {k : Int} {v : α}
    (h : mapFind? m k = some v) : (k, v) ∈ m := by
  unfold mapFind? at h
  cases hf : List.find? (fun p => p.1 == k) m with
  | none => rw [hf] at h; simp at h
  | some p =>
      rw [hf] at h
      simp only [Option.map_some', Option.some.injEq] at h
      have hmem := List.mem_of_find?_eq_some hf
      have hk : p.1 = k := by simpa using List.find?_some hf
      have hpv : p = (k, v) := by
        cases p
        simp_all
      rwa [hpv] at hmem

theorem trackFold_eq (gb : GuideBook) (l : List Int) (ws : WatsonSession) :
    l.foldl (trackStep gb) ws =
      { ws with Tags := ws.Tags ++ l.map (trackTagOf gb),
                virtual := ws.virtual || l.any (isVirtualTrack gb) } := by
  induction l generalizing ws with
  | nil => simp
  | cons h t ih =>
      rw [List.foldl_cons, ih]
      by_cases hv : isVirtualTrack gb h = true
      · simp [trackStep, hv]
      · simp only [Bool.not_eq_true] at hv
        simp [trackStep, hv]

theorem locFold_eq (l : List Int) (ws : WatsonSession) :
    l.foldl locStep ws =
      { ws with virtual := ws.virtual || l.any isSentinelLoc,
                in_person := ws.in_person || l.any (fun x => !isSentinelLoc x) } := by
  induction l generalizing ws with
  | nil => simp
  | cons h t ih =>
      rw [List.foldl_cons, ih]
      by_cases hs : isSentinelLoc h = true
      · simp [locStep, hs]
      · simp only [Bool.not_eq_true] at hs
        simp [locStep, hs]

theorem buildSessionTags_eq (ws : WatsonSession) (gs : GuidebookSession) (gb : GuideBook) :
    BuildSessionTags ws gs gb =
      { ws with
        Tags := gs.ScheduleTracks.map (trackTagOf gb)
          ++ ((if ws.in_person || gs.Locations.any (fun x => !isSentinelLoc x) then [inPersonTag] else [])
            ++ (if (ws.virtual || gs.ScheduleTracks.any (isVirtualTrack gb)) || gs.Locations.any isSentinelLoc then [virtualTag] else [])),
        in_person := ws.in_person || gs.Locations.any (fun x => !isSentinelLoc x),
        virtual := (ws.virtual || gs.ScheduleTracks.any (isVirtualTrack gb)) || gs.Locations.any isSentinelLoc } := by
  unfold BuildSessionTags
  simp only [trackFold_eq, locFold_eq]
  by_cases hip : (ws.in_person || gs.Locations.any (fun x => !isSentinelLoc x)) = true
  · by_cases hv : ((ws.virtual || gs.ScheduleTracks.any (isVirtualTrack gb)) || gs.Locations.any isSentinelLoc) = true
    · simp [hip, hv]
    · simp only [Bool.not_eq_true] at hv
      simp [hip, hv]
  · simp only [Bool.not_eq_true] at hip
    by_cases hv : ((ws.virtual || gs.ScheduleTracks.any (isVirtualTrack gb)) || gs.Locations.any isSentinelLoc) = true
    · simp [hip, hv]
    · simp only [Bool.not_eq_true] at hv
      simp [hip, hv]

theorem buildSessionLinks_eq (ws : WatsonSession) :
    BuildSessionLinks ws =
      { ws with Links :=
          { Session := if ws.virtual then "https://virtual.seattlein2025.org/deep-link/session?item_id=" ++ toString ws.ID else ws.Links.Session,
            Stage := ws.Links.Stage, Replay := ws.Links.Replay,
            Chat := "https://virtual.seattlein2025.org/deep-link/chat?item_id=" ++ toString ws.ID } } := by
  unfold BuildSessionLinks
  by_cases hv : ws.virtual = true
  · simp [hv]
  · simp only [Bool.not_eq_true] at hv
    simp [hv]

theorem addPeople_eq (gb : GuideBook) (ws : WatsonSession) (h : ws.People = []) :
    addPeople gb ws = { ws with People := watsonPeople gb ws.ID } := by
  unfold addPeople watsonPeople
  cases hf : mapFind? gb.SessionLinks ws.ID with
  | none => simp [← h]
  | some sl => simp

theorem addPeople_Tags (gb : GuideBook) (ws : WatsonSession) :
    (addPeople gb ws).Tags = ws.Tags := by
  unfold addPeople
  cases mapFind? gb.SessionLinks ws.ID <;> rfl

theorem addPeople_Locations (gb : GuideBook) (ws : WatsonSession) :
    (addPeople gb ws).Locations = ws.Locations := by
  unfold addPeople
  cases mapFind? gb.SessionLinks ws.ID <;> rfl

theorem addPeople_DurationMinutes (gb : GuideBook) (ws : WatsonSession) :
    (addPeople gb ws).DurationMinutes = ws.DurationMinutes := by
  unfold addPeople
  cases mapFind? gb.SessionLinks ws.ID <;> rfl

theorem addPeople_in_person (gb : GuideBook) (ws : WatsonSession) :
    (addPeople gb ws).in_person = ws.in_person := by
  unfold addPeople
  cases mapFind? gb.SessionLinks ws.ID <;> rfl

theorem addPeople_virtual (gb : GuideBook) (ws : WatsonSession) :
    (addPeople gb ws).virtual = ws.virtual := by
  unfold addPeople
  cases mapFind? gb.SessionLinks ws.ID <;> rfl

theorem buildSessionTags_Tags (ws : WatsonSession) (gs : GuidebookSession) (gb : GuideBook) :
    (BuildSessionTags ws gs gb).Tags =
      gs.ScheduleTracks.map (trackTagOf gb)
        ++ ((if ws.in_person || gs.Locations.any (fun x => !isSentinelLoc x) then [inPersonTag] else [])
          ++ (if (ws.virtual || gs.ScheduleTracks.any (isVirtualTrack gb)) || gs.Locations.any isSentinelLoc then [virtualTag] else [])) := by
  rw [buildSessionTags_eq]

theorem buildSessionTags_in_person (ws : WatsonSession) (gs : GuidebookSession) (gb : GuideBook) :
    (BuildSessionTags ws gs gb).in_person
      = (ws.in_person || gs.Locations.any (fun x => !isSentinelLoc x)) := by
  rw [buildSessionTags_eq]

theorem buildSessionTags_virtual (ws : WatsonSession) (gs : GuidebookSession) (gb : GuideBook) :
    (BuildSessionTags ws gs gb).virtual
      = ((ws.virtual || gs.ScheduleTracks.any (isVirtualTrack gb)) || gs.Locations.any isSentinelLoc) := by
  rw [buildSessionTags_eq]

theorem buildSessionTags_Locations (ws : WatsonSession) (gs : GuidebookSession) (gb : GuideBook) :
    (BuildSessionTags ws gs gb).Locations = ws.Locations := by
  rw [buildSessionTags_eq]

theorem buildSessionTags_DurationMinutes (ws : WatsonSession) (gs : GuidebookSession) (gb : GuideBook) :
    (BuildSessionTags ws gs gb).DurationMinutes = ws.DurationMinutes := by
  rw [buildSessionTags_eq]

theorem buildSessionLinks_Tags (ws : WatsonSession) :
    (BuildSessionLinks ws).Tags = ws.Tags := by
  rw [buildSessionLinks_eq]

theorem buildSessionLinks_Locations (ws : WatsonSession) :
    (BuildSessionLinks ws).Locations = ws.Locations := by
  rw [buildSessionLinks_eq]

theorem buildSessionLinks_DurationMinutes (ws : WatsonSession) :
    (BuildSessionLinks ws).DurationMinutes = ws.DurationMinutes := by
  rw [buildSessionLinks_eq]

theorem buildSessionLinks_in_person (ws : WatsonSession) :
    (BuildSessionLinks ws).in_person = ws.in_person := by
  rw [buildSessionLinks_eq]

theorem buildSessionLinks_virtual (ws : WatsonSession) :
    (BuildSessionLinks ws).virtual = ws.virtual := by
  rw [buildSessionLinks_eq]

theorem ite_ws_Tags (c : Prop) [Decidable c] (a b : WatsonSession) :
    (if c then a else b).Tags = if c then a.Tags else b.Tags := by
  split <;> rfl

theorem ite_ws_Locations (c : Prop) [Decidable c] (a b : WatsonSession) :
    (if c then a else b).Locations = if c then a.Locations else b.Locations := by
  split <;> rfl

theorem ite_ws_DurationMinutes (c : Prop) [Decidable c] (a b : WatsonSession) :
    (if c then a else b).DurationMinutes = if c then a.DurationMinutes else b.DurationMinutes := by
  split <;> rfl

theorem ite_ws_in_person (c : Prop) [Decidable c] (a b : WatsonSession) :
    (if c then a else b).in_person = if c then a.in_person else b.in_person := by
  split <;> rfl

theorem ite_ws_virtual (c : Prop) [Decidable c] (a b : WatsonSession) :
    (if c then a else b).virtual = if c then a.virtual else b.virtual := by
  split <;> rfl

theorem assembleWatson_DurationMinutes (gb : GuideBook) (gs : GuidebookSession) (s f : GoTime) :
    (assembleWatson gb gs s f).DurationMinutes = goTdiv (goSubNs f s) 60000000000 := by
  unfold assembleWatson
  simp only [buildSessionLinks_DurationMinutes, ite_ws_DurationMinutes,
    buildSessionTags_DurationMinutes, addPeople_DurationMinutes, ite_self]

theorem assembleWatson_Locations (gb : GuideBook) (gs : GuidebookSession) (s f : GoTime) :
    (assembleWatson gb gs s f).Locations =
      if (gs.Locations.map (fun loc => mapFindD gb.Locations loc "")).isEmpty
      then ["Discord"]
      else gs.Locations.map (fun loc => mapFindD gb.Locations loc "") := by
  unfold assembleWatson
  simp only [buildSessionLinks_Locations, ite_ws_Locations,
    buildSessionTags_Locations, addPeople_Locations, freshWatson, ite_self]

theorem assembleWatson_in_person (gb : GuideBook) (gs : GuidebookSession) (s f : GoTime) :
    (assembleWatson gb gs s f).in_person =
      (if !(gs.Locations.any (fun x => !isSentinelLoc x)
            || (gs.ScheduleTracks.any (isVirtualTrack gb) || gs.Locations.any isSentinelLoc))
       then true
       else gs.Locations.any (fun x => !isSentinelLoc x)) := by
  unfold assembleWatson
  simp only [buildSessionLinks_in_person, ite_ws_in_person, ite_ws_virtual,
    buildSessionTags_in_person, buildSessionTags_virtual, addPeople_in_person,
    addPeople_virtual, freshWatson, ite_self, Bool.false_or]

theorem assembleWatson_virtual (gb : GuideBook) (gs : GuidebookSession) (s f : GoTime) :
    (assembleWatson gb gs s f).virtual =
      (gs.ScheduleTracks.any (isVirtualTrack gb) || gs.Locations.any isSentinelLoc) := by
  unfold assembleWatson
  simp only [buildSessionLinks_virtual, ite_ws_virtual, buildSessionTags_virtual,
    addPeople_virtual, freshWatson, ite_self, Bool.false_or]

theorem assembleWatson_Tags (gb : GuideBook) (gs : GuidebookSession) (s f : GoTime) :
    (assembleWatson gb gs s f).Tags =
      gs.ScheduleTracks.map (trackTagOf gb)
        ++ ((if gs.Locations.any (fun x => !isSentinelLoc x) then [inPersonTag] else [])
          ++ (if gs.ScheduleTracks.any (isVirtualTrack gb) || gs.Locations.any isSentinelLoc then [virtualTag] else [])) := by
  unfold assembleWatson
  simp only [buildSessionLinks_Tags, ite_ws_Tags, ite_ws_in_person, ite_ws_virtual,
    buildSessionTags_Tags, addPeople_Tags, addPeople_in_person, addPeople_virtual,
    freshWatson, ite_self, Bool.false_or]

theorem transformSession_eq_ok (gb : GuideBook) (gs : GuidebookSession) (s f : GoTime)
    (hs : parseGuidebookTime gs.StartTime = some s)
    (hf : parseGuidebookTime gs.EndTime = some f) :
    transformSession gb gs = .ok (assembleWatson gb gs s f) := by
  unfold transformSession
  rw [hs, hf]

theorem goSubNs_of_bounds (t u : GoTime)
    (h1 : INT64_MIN ≤ absNs t - absNs u) (h2 : absNs t - absNs u ≤ INT64_MAX) :
    goSubNs t u = absNs t - absNs u := by
  unfold goSubNs
  rw [if_neg (by omega), if_neg (by omega)]

theorem goSubNs_nonpos (t u : GoTime) (h : absNs t ≤ absNs u) : goSubNs t u ≤ 0 := by
  show (if absNs t - absNs u > INT64_MAX then INT64_MAX
        else if absNs t - absNs u < INT64_MIN then INT64_MIN
        else absNs t - absNs u) ≤ 0
  unfold INT64_MAX INT64_MIN
  have hd : absNs t - absNs u ≤ 0 := by omega
  split
  · omega
  · split
    · omega
    · omega

theorem goTdiv_nonpos (a b : Int) (ha : a ≤ 0) (hb : 0 < b) : goTdiv a b ≤ 0 := by
  unfold goTdiv
  rcases lt_or_eq_of_le ha with h | h
  · rw [Int.sign_eq_neg_one_iff_neg.mpr h, Int.sign_eq_one_iff_pos.mpr hb]
    have : (0 : Int) ≤ (a.natAbs / b.natAbs : Nat) := Int.ofNat_nonneg _
    nlinarith
  · subst h
    simp [goTdiv]

theorem invertItemStep_self (idv : Int) (m : GBMap CustomList) (w : Int) :
    mapFindD (invertItemStep idv m w) w goZeroCustomList
      = { mapFindD m w goZeroCustomList with
          Items := (mapFindD m w goZeroCustomList).Items ++ [idv] } := by
  unfold invertItemStep
  rw [mapFindD_insert_self]

theorem invertItemStep_ne (idv : Int) (m : GBMap CustomList) (w w' : Int) (h : w' ≠ w) :
    mapFindD (invertItemStep idv m w) w' goZeroCustomList
      = mapFindD m w' goZeroCustomList := by
  unfold invertItemStep
  rw [mapFindD_insert_ne _ _ _ _ _ h]

theorem invertInner_items (ls : List Int) (m : GBMap CustomList) (idv w : Int) :
    (mapFindD (ls.foldl (invertItemStep idv) m) w goZeroCustomList).Items
      = (mapFindD m w goZeroCustomList).Items ++ List.replicate (ls.count w) idv := by
  induction ls generalizing m with
  | nil => simp
  | cons h t ih =>
      rw [List.foldl_cons, ih]
      by_cases hw : h = w
      · subst hw
        rw [invertItemStep_self, List.count_cons_self, List.replicate_succ]
        simp
      · rw [invertItemStep_ne _ _ _ _ (Ne.symm hw),
          List.count_cons_of_ne (fun hc => hw (Eq.symm hc))]

theorem invertMembership_items (entries : List (Int × ListItem)) (m : GBMap CustomList) (w : Int) :
    (mapFindD (invertMembership entries m) w goZeroCustomList).Items
      = (mapFindD m w goZeroCustomList).Items
        ++ entries.flatMap (fun e => List.replicate (e.2.CustomLists.count w) e.1) := by
  induction entries generalizing m with
  | nil => simp [invertMembership]
  | cons e t ih =>
      show (mapFindD (List.foldl _ _ (e :: t)) w goZeroCustomList).Items = _
      rw [List.foldl_cons]
      have step : List.foldl (fun m e => e.2.CustomLists.foldl (invertItemStep e.1) m) (e.2.CustomLists.foldl (invertItemStep e.1) m) t
          = invertMembership t (e.2.CustomLists.foldl (invertItemStep e.1) m) := rfl
      rw [step, ih, invertInner_items, List.flatMap_cons, List.append_assoc]

theorem foldl_insert_items_nil :
    ∀ (cls : List CustomList) (m0 : GBMap CustomList),
      (∀ cl ∈ cls, cl.Items = []) → (∀ p ∈ m0, p.2.Items = []) →
      ∀ p ∈ cls.foldl (fun m cl => mapInsert m cl.ID cl) m0, p.2.Items = []
  | [], _, _, h0, p, hp => h0 p hp
  | c :: t, m0, hcl, h0, p, hp => by
      rw [List.foldl_cons] at hp
      refine foldl_insert_items_nil t (mapInsert m0 c.ID c)
        (fun cl h => hcl cl (List.mem_cons_of_mem _ h)) ?_ p hp
      intro q hq
      rcases List.mem_cons.mp hq with h | h
      · rw [h]
        exact hcl c (List.mem_cons_self _ _)
      · exact h0 q h

theorem buildListsMap_items_nil (cls : List CustomList)
    (hcl : ∀ cl ∈ cls, cl.Items = []) (w : Int) :
    (mapFindD (buildListsMap cls) w goZeroCustomList).Items = [] := by
  unfold mapFindD
  cases hf : mapFind? (buildListsMap cls) w with
  | none => rfl
  | some v =>
      have hmem : (w, v) ∈ buildListsMap cls := mapFind?_mem hf
      have := foldl_insert_items_nil cls [] hcl (by intro p hp; cases hp) (w, v) hmem
      simpa using this

theorem anySentinel_iff (l : List Int) :
    l.any isSentinelLoc = true ↔ ∃ loc ∈ l, loc = VIRTUAL_ROOM_1 ∨ loc = VIRTUAL_ROOM_2 := by
  simp [List.any_eq_true, isSentinelLoc]

theorem anyNonSentinel_iff (l : List Int) :
    l.any (fun x => !isSentinelLoc x) = true
      ↔ ∃ loc ∈ l, ¬(loc = VIRTUAL_ROOM_1 ∨ loc = VIRTUAL_ROOM_2) := by
  simp [List.any_eq_true, isSentinelLoc, not_or]

theorem anyVirtualTrack_iff (gb : GuideBook) (l : List Int) :
    l.any (isVirtualTrack gb) = true ↔ ∃ st ∈ l, mapFindD gb.Tracks st "" = "virtual" := by
  simp [List.any_eq_true, isVirtualTrack]

theorem trackTagOf_ne_virtualTag (gb : GuideBook) (st : Int) : trackTagOf gb st ≠ virtualTag := by
  intro h
  have h2 := congrArg Tag.Category h
  simp only [trackTagOf, makeTag, virtualTag] at h2
  exact absurd h2 (by decide)

theorem trackTagOf_ne_inPersonTag (gb : GuideBook) (st : Int) : trackTagOf gb st ≠ inPersonTag := by
  intro h
  have h2 := congrArg Tag.Category h
  simp only [trackTagOf, makeTag, inPersonTag] at h2
  exact absurd h2 (by decide)

theorem virtualTag_ne_inPersonTag : virtualTag ≠ inPersonTag := by decide

theorem trackTags_env_filter (gb : GuideBook) (l : List Int) :
    (l.map (trackTagOf gb)).filter (fun t => t.Category == "Environment") = [] := by
  induction l with
  | nil => rfl
  | cons h t ih =>
      have hc : ((trackTagOf gb h).Category == "Environment") = false := rfl
      simp [List.filter_cons, hc, ih]

/-- C1 (amended): after `BuildSessionTags` runs on a fresh (unflagged)
record, the session is classified virtual iff a location id is one of the
two virtual-room sentinels **or a track resolves to the name `"virtual"`**;
it is classified in-person iff some location id is not a sentinel; the
`"Virtual Session"` / `"In Person Session"` Environment tags are in the tag
set exactly when the corresponding flag is set, and the Environment-category
tags are exactly the ones so appended. -/
theorem C1_amended (ws0 : WatsonSession) (gs : GuidebookSession) (gb : GuideBook)
    (hip : ws0.in_person = false) (hv : ws0.virtual = false) :
    ((BuildSessionTags ws0 gs gb).virtual = true ↔
      ((∃ loc ∈ gs.Locations, loc = VIRTUAL_ROOM_1 ∨ loc = VIRTUAL_ROOM_2)
        ∨ ∃ st ∈ gs.ScheduleTracks, mapFindD gb.Tracks st "" = "virtual"))
    ∧ ((BuildSessionTags ws0 gs gb).in_person = true ↔
      ∃ loc ∈ gs.Locations, ¬(loc = VIRTUAL_ROOM_1 ∨ loc = VIRTUAL_ROOM_2))
    ∧ (virtualTag ∈ (BuildSessionTags ws0 gs gb).Tags ↔ (BuildSessionTags ws0 gs gb).virtual = true)
    ∧ (inPersonTag ∈ (BuildSessionTags ws0 gs gb).Tags ↔ (BuildSessionTags ws0 gs gb).in_person = true)
    ∧ ((BuildSessionTags ws0 gs gb).Tags.filter (fun t => t.Category == "Environment")
        = (if (BuildSessionTags ws0 gs gb).in_person then [inPersonTag] else [])
          ++ (if (BuildSessionTags ws0 gs gb).virtual then [virtualTag] else [])) := by
  rw [buildSessionTags_Tags, buildSessionTags_in_person, buildSessionTags_virtual, hip, hv]
  simp only [Bool.false_or]
  refine ⟨?_, ?_, ?_, ?_, ?_⟩
  · simp only [Bool.or_eq_true, anyVirtualTrack_iff, anySentinel_iff]
    exact or_comm
  · exact anyNonSentinel_iff gs.Locations
  · cases hipb : gs.Locations.any (fun x => !isSentinelLoc x) <;>
      cases hvb : (gs.ScheduleTracks.any (isVirtualTrack gb) || gs.Locations.any isSentinelLoc) <;>
        simp [hipb, hvb, List.mem_append, List.mem_map, trackTagOf_ne_virtualTag,
          virtualTag_ne_inPersonTag]
  · cases hipb : gs.Locations.any (fun x => !isSentinelLoc x) <;>
      cases hvb : (gs.ScheduleTracks.any (isVirtualTrack gb) || gs.Locations.any isSentinelLoc) <;>
        simp [hipb, hvb, List.mem_append, List.mem_map, trackTagOf_ne_inPersonTag,
          Ne.symm virtualTag_ne_inPersonTag]
  · rw [List.filter_append, List.filter_append, trackTags_env_filter]
    cases hipb : gs.Locations.any (fun x => !isSentinelLoc x) <;>
      cases hvb : (gs.ScheduleTracks.any (isVirtualTrack gb) || gs.Locations.any isSentinelLoc) <;>
        simp [List.filter_cons, show (inPersonTag.Category == "Environment") = true from rfl,
          show (virtualTag.Category == "Environment") = true from rfl]

/-- C1 (counterexample): in `gbTrackVirtual` the one session's only location
id is not a virtual-room sentinel, yet the transformed session is classified
virtual (a track named `"virtual"` also sets the flag), so "virtual iff a
location id is a sentinel" fails. -/
theorem C1_counterexample :
    (WatsonFromGuidebook gbTrackVirtual).toOption.map (fun l => l.map (fun ws => ws.virtual))
        = some [true]
    ∧ gbTrackVirtual.Sessions.map (fun gs => gs.Locations.any isSentinelLoc) = [false] := by
  constructor
  · rfl
  · rfl

/-- C1 (witness): the amended claim instantiated at the session whose only
location is the first virtual-room sentinel. -/
theorem C1_witness :
    (freshWatson gsVirtualOnly).in_person = false
    ∧ (freshWatson gsVirtualOnly).virtual = false
    ∧ (((BuildSessionTags (freshWatson gsVirtualOnly) gsVirtualOnly emptyGB).virtual = true ↔
        ((∃ loc ∈ gsVirtualOnly.Locations, loc = VIRTUAL_ROOM_1 ∨ loc = VIRTUAL_ROOM_2)
          ∨ ∃ st ∈ gsVirtualOnly.ScheduleTracks, mapFindD emptyGB.Tracks st "" = "virtual"))
      ∧ ((BuildSessionTags (freshWatson gsVirtualOnly) gsVirtualOnly emptyGB).in_person = true ↔
        ∃ loc ∈ gsVirtualOnly.Locations, ¬(loc = VIRTUAL_ROOM_1 ∨ loc = VIRTUAL_ROOM_2))
      ∧ (virtualTag ∈ (BuildSessionTags (freshWatson gsVirtualOnly) gsVirtualOnly emptyGB).Tags ↔
          (BuildSessionTags (freshWatson gsVirtualOnly) gsVirtualOnly emptyGB).virtual = true)
      ∧ (inPersonTag ∈ (BuildSessionTags (freshWatson gsVirtualOnly) gsVirtualOnly emptyGB).Tags ↔
          (BuildSessionTags (freshWatson gsVirtualOnly) gsVirtualOnly emptyGB).in_person = true)
      ∧ ((BuildSessionTags (freshWatson gsVirtualOnly) gsVirtualOnly emptyGB).Tags.filter (fun t => t.Category == "Environment")
          = (if (BuildSessionTags (freshWatson gsVirtualOnly) gsVirtualOnly emptyGB).in_person then [inPersonTag] else [])
            ++ (if (BuildSessionTags (freshWatson gsVirtualOnly) gsVirtualOnly emptyGB).virtual then [virtualTag] else []))) :=
  ⟨rfl, rfl, C1_amended (freshWatson gsVirtualOnly) gsVirtualOnly emptyGB rfl rfl⟩

theorem trackTagOf_Category (gb : GuideBook) (st : Int) :
    (trackTagOf gb st).Category = "Track" := rfl

theorem locs_nil_iff (l : List Int) :
    (l.any (fun x => !isSentinelLoc x) = false ∧ l.any isSentinelLoc = false) ↔ l = [] := by
  constructor
  · rintro ⟨h1, h2⟩
    cases l with
    | nil => rfl
    | cons a t =>
        simp only [List.any_cons, Bool.or_eq_false_iff] at h1 h2
        rcases h1 with ⟨h1a, _⟩
        rcases h2 with ⟨h2a, _⟩
        rw [h2a] at h1a
        cases h1a
  · rintro rfl
    simp

theorem sessionWarned_eq (gb : GuideBook) (gs : GuidebookSession) :
    sessionWarned gb gs
      = !((gs.Locations.any (fun x => !isSentinelLoc x))
          || (gs.ScheduleTracks.any (isVirtualTrack gb) || gs.Locations.any isSentinelLoc)) := by
  show (!((BuildSessionTags (freshWatson gs) gs gb).in_person
          || (BuildSessionTags (freshWatson gs) gs gb).virtual)) = _
  rw [buildSessionTags_in_person, buildSessionTags_virtual]
  simp [freshWatson]

/-- C2 (amended): a session with neither flag set after scanning (no location
ids and no track resolving to `"virtual"`) is the one that triggers the
warning and is defaulted to in-person, so every emitted session has a flag
set; but the Environment tags are appended **before** that default, so a
session carries an Environment-category tag iff it was not the warned case —
a warned (zero-location) session's tag list contains no Environment tag. -/
theorem C2_amended (gb : GuideBook) (gs : GuidebookSession) (s f : GoTime)
    (hs : parseGuidebookTime gs.StartTime = some s)
    (hf : parseGuidebookTime gs.EndTime = some f) :
    transformSession gb gs = .ok (assembleWatson gb gs s f)
    ∧ ((assembleWatson gb gs s f).in_person || (assembleWatson gb gs s f).virtual) = true
    ∧ (sessionWarned gb gs = true ↔
        (gs.Locations = [] ∧ ∀ st ∈ gs.ScheduleTracks, mapFindD gb.Tracks st "" ≠ "virtual"))
    ∧ (sessionWarned gb gs = false ↔
        ∃ t ∈ (assembleWatson gb gs s f).Tags, t.Category = "Environment")
    ∧ (sessionWarned gb gs = true →
        (assembleWatson gb gs s f).Tags.filter (fun t => t.Category == "Environment") = []) := by
  refine ⟨transformSession_eq_ok gb gs s f hs hf, ?_, ?_, ?_, ?_⟩
  · rw [assembleWatson_in_person, assembleWatson_virtual]
    cases hip : gs.Locations.any (fun x => !isSentinelLoc x) <;>
      cases hv : (gs.ScheduleTracks.any (isVirtualTrack gb) || gs.Locations.any isSentinelLoc) <;>
        simp [hip, hv]
  · rw [sessionWarned_eq]
    constructor
    · intro h
      simp only [Bool.not_eq_eq_eq_not, Bool.not_true, Bool.or_eq_false_iff] at h
      rcases h with ⟨hip0, hT, hL⟩
      refine ⟨(locs_nil_iff _).mp ⟨hip0, hL⟩, ?_⟩
      intro st hst heq
      have : gs.ScheduleTracks.any (isVirtualTrack gb) = true :=
        (anyVirtualTrack_iff gb _).mpr ⟨st, hst, heq⟩
      rw [this] at hT
      cases hT
    · rintro ⟨hnil, htr⟩
      have hT : gs.ScheduleTracks.any (isVirtualTrack gb) = false := by
        cases hT : gs.ScheduleTracks.any (isVirtualTrack gb) with
        | false => rfl
        | true =>
            rcases (anyVirtualTrack_iff gb _).mp hT with ⟨st, hst, heq⟩
            exact absurd heq (htr st hst)
      rw [hnil, hT]
      rfl
  · rw [sessionWarned_eq, assembleWatson_Tags]
    cases hip : gs.Locations.any (fun x => !isSentinelLoc x) <;>
      cases hv : (gs.ScheduleTracks.any (isVirtualTrack gb) || gs.Locations.any isSentinelLoc)
    · refine iff_of_false (by decide) ?_
      rintro ⟨t, ht, hcat⟩
      rw [if_neg (by decide), if_neg (by decide), List.append_nil, List.append_nil] at ht
      rcases List.mem_map.mp ht with ⟨st, _, rfl⟩
      exact absurd (trackTagOf_Category gb st ▸ hcat) (by decide)
    · refine iff_of_true (by decide) ⟨virtualTag, ?_, rfl⟩
      rw [if_neg (by decide), if_pos rfl]
      simp
    · refine iff_of_true (by decide) ⟨inPersonTag, ?_, rfl⟩
      rw [if_pos rfl, if_neg (by decide)]
      simp
    · refine iff_of_true (by decide) ⟨inPersonTag, ?_, rfl⟩
      rw [if_pos rfl, if_pos rfl]
      simp
  · intro h
    rw [sessionWarned_eq] at h
    simp only [Bool.not_eq_eq_eq_not, Bool.not_true, Bool.or_eq_false_iff] at h
    rcases h with ⟨hip0, hT, hL⟩
    rw [assembleWatson_Tags, hip0, hT, hL]
    simp [List.filter_append, trackTags_env_filter]

/-- C2 (counterexample): the zero-location, zero-track session of
`gbNoLocations` is transformed successfully, yet its tag list has no
Environment-category tag at all — the in-person default happens after the
tags were built, so "every OutputSession has at least one Environment tag"
fails. -/
theorem C2_counterexample :
    (WatsonFromGuidebook gbNoLocations).toOption.map
        (fun l => l.map (fun ws => ws.Tags.filter (fun t => t.Category == "Environment")))
      = some [[]]
    ∧ (WatsonFromGuidebook gbNoLocations).toOption.map
        (fun l => l.map (fun ws => (ws.in_person, ws.virtual)))
      = some [(true, false)] := by
  constructor
  · rfl
  · rfl

/-- C2 (witness): the amended claim instantiated at the zero-location
session (the warned, defaulted case). -/
theorem C2_witness :
    parseGuidebookTime gsNoLoc.StartTime = some ⟨2025, 8, 31, 10, 0, 0, 0⟩
    ∧ parseGuidebookTime gsNoLoc.EndTime = some ⟨2025, 8, 31, 11, 0, 0, 0⟩
    ∧ (transformSession gbNoLocations gsNoLoc
          = .ok (assembleWatson gbNoLocations gsNoLoc ⟨2025, 8, 31, 10, 0, 0, 0⟩ ⟨2025, 8, 31, 11, 0, 0, 0⟩)
      ∧ ((assembleWatson gbNoLocations gsNoLoc ⟨2025, 8, 31, 10, 0, 0, 0⟩ ⟨2025, 8, 31, 11, 0, 0, 0⟩).in_person
          || (assembleWatson gbNoLocations gsNoLoc ⟨2025, 8, 31, 10, 0, 0, 0⟩ ⟨2025, 8, 31, 11, 0, 0, 0⟩).virtual) = true
      ∧ (sessionWarned gbNoLocations gsNoLoc = true ↔
          (gsNoLoc.Locations = [] ∧ ∀ st ∈ gsNoLoc.ScheduleTracks, mapFindD gbNoLocations.Tracks st "" ≠ "virtual"))
      ∧ (sessionWarned gbNoLocations gsNoLoc = false ↔
          ∃ t ∈ (assembleWatson gbNoLocations gsNoLoc ⟨2025, 8, 31, 10, 0, 0, 0⟩ ⟨2025, 8, 31, 11, 0, 0, 0⟩).Tags,
            t.Category = "Environment")
      ∧ (sessionWarned gbNoLocations gsNoLoc = true →
          (assembleWatson gbNoLocations gsNoLoc ⟨2025, 8, 31, 10, 0, 0, 0⟩ ⟨2025, 8, 31, 11, 0, 0, 0⟩).Tags.filter
              (fun t => t.Category == "Environment") = [])) :=
  ⟨rfl, rfl, C2_amended gbNoLocations gsNoLoc _ _ rfl rfl⟩

/-- C3 (amended): every track id on a session yields a tag with category
`"Track"`, label the resolved track name, and value the slug of
`"track_" + name`; the slug of `"track_Art & Craft"` is `"track_art__craft"`
(the two spaces become underscores before the `&` is stripped, leaving a
double underscore). -/
theorem C3_amended (ws0 : WatsonSession) (gs : GuidebookSession) (gb : GuideBook) (st : Int)
    (h : st ∈ gs.ScheduleTracks) :
    (Tag.mk (mapFindD gb.Tracks st "") (slugValue ("track_" ++ mapFindD gb.Tracks st "")) "Track")
        ∈ (BuildSessionTags ws0 gs gb).Tags
    ∧ slugValue ("track_" ++ "Art & Craft") = "track_art__craft" := by
  constructor
  · rw [buildSessionTags_Tags]
    exact List.mem_append_left _ (List.mem_map.mpr ⟨st, h, rfl⟩)
  · decide

/-- C3 (counterexample): the slugged value for track name `"Art & Craft"` is
`"track_art__craft"`, not the claimed `"track_art_craft"` — spaces become
underscores before the `&` is stripped. -/
theorem C3_counterexample :
    (makeTag "Art & Craft" ("track_" ++ "Art & Craft") "Track").Value = "track_art__craft"
    ∧ (makeTag "Art & Craft" ("track_" ++ "Art & Craft") "Track").Value ≠ "track_art_craft" := by
  constructor
  · decide
  · decide

/-- C3 (witness): the amended claim instantiated at the `"Art & Craft"`
track of `gbArtCraft`. -/
theorem C3_witness :
    7 ∈ gsArtCraft.ScheduleTracks
    ∧ ((Tag.mk (mapFindD gbArtCraft.Tracks 7 "") (slugValue ("track_" ++ mapFindD gbArtCraft.Tracks 7 "")) "Track")
          ∈ (BuildSessionTags (freshWatson gsArtCraft) gsArtCraft gbArtCraft).Tags
      ∧ slugValue ("track_" ++ "Art & Craft") = "track_art__craft") :=
  ⟨by decide, C3_amended (freshWatson gsArtCraft) gsArtCraft gbArtCraft 7 (by decide)⟩

theorem goStrLt_irrefl : ∀ x : List Char, goStrLt x x = false
  | [] => rfl
  | a :: as => by
      simp only [goStrLt]
      rw [if_neg (lt_irrefl a), if_neg (lt_irrefl a)]
      exact goStrLt_irrefl as

theorem goStrLt_trans : ∀ (x y z : List Char),
    goStrLt x y = true → goStrLt y z = true → goStrLt x z = true := by
  intro x
  induction x with
  | nil =>
      intro y z h1 h2
      cases y with
      | nil => cases h1
      | cons b bs =>
          cases z with
          | nil => cases h2
          | cons c cs => rfl
  | cons a as ih =>
      intro y z h1 h2
      cases y with
      | nil => cases h1
      | cons b bs =>
          cases z with
          | nil => cases h2
          | cons c cs =>
              simp only [goStrLt] at h1 h2 ⊢
              rcases lt_trichotomy a b with hab | hab | hab
              · rcases lt_trichotomy b c with hbc | hbc | hbc
                · rw [if_pos (lt_trans hab hbc)]
                · subst hbc
                  rw [if_pos hab]
                · rw [if_neg (lt_asymm hbc), if_pos hbc] at h2
                  cases h2
              · subst hab
                rw [if_neg (lt_irrefl a), if_neg (lt_irrefl a)] at h1
                rcases lt_trichotomy a c with hac | hac | hac
                · rw [if_pos hac]
                · subst hac
                  rw [if_neg (lt_irrefl a), if_neg (lt_irrefl a)] at h2 ⊢
                  exact ih bs cs h1 h2
                · rw [if_neg (lt_asymm hac), if_pos hac] at h2
                  cases h2
              · rw [if_neg (lt_asymm hab), if_pos hab] at h1
                cases h1

theorem goStrLt_eq_false_iff : ∀ (x y : List Char),
    goStrLt x y = false ↔ (goStrLt y x = true ∨ x = y) := by
  intro x
  induction x with
  | nil =>
      intro y
      cases y with
      | nil => simp [goStrLt]
      | cons b bs => simp [goStrLt]
  | cons a as ih =>
      intro y
      cases y with
      | nil => simp [goStrLt]
      | cons b bs =>
          simp only [goStrLt, List.cons.injEq]
          rcases lt_trichotomy a b with hab | hab | hab
          · rw [if_pos hab, if_neg (lt_asymm hab), if_pos hab]
            simp [ne_of_lt hab]
          · subst hab
            rw [if_neg (lt_irrefl a), if_neg (lt_irrefl a), if_neg (lt_irrefl a),
              if_neg (lt_irrefl a)]
            rw [ih bs]
            simp
          · rw [if_neg (lt_asymm hab), if_pos hab, if_pos hab]
            simp

instance : IsTotal WatsonSession wle :=
  ⟨fun a b => by
    unfold wle
    cases h : goStrLt b.StartTime.toList a.StartTime.toList with
    | false => exact Or.inl rfl
    | true => exact Or.inr ((goStrLt_eq_false_iff _ _).mpr (Or.inl h))⟩

instance : IsTrans WatsonSession wle :=
  ⟨fun a b c h1 h2 => by
    unfold wle at h1 h2 ⊢
    rcases (goStrLt_eq_false_iff _ _).mp h1 with hab | hab <;>
      rcases (goStrLt_eq_false_iff _ _).mp h2 with hbc | hbc
    · exact (goStrLt_eq_false_iff _ _).mpr (Or.inl (goStrLt_trans _ _ _ hab hbc))
    · refine (goStrLt_eq_false_iff _ _).mpr (Or.inl ?_)
      rw [hbc]
      exact hab
    · refine (goStrLt_eq_false_iff _ _).mpr (Or.inl ?_)
      rw [← hab]
      exact hbc
    · exact (goStrLt_eq_false_iff _ _).mpr (Or.inr (hbc.trans hab))⟩

/-- C4 (amended): for every input, a successful `WatsonFromGuidebook` run is
sorted non-decreasing by the reformatted start-time string.  (The claim's
further inference that this is chronological fails: the `.999` formatter
drops trailing zeros, so the format is not fixed-width — see the
counterexample.) -/
theorem C4_amended (gb : GuideBook) (out : List WatsonSession)
    (h : WatsonFromGuidebook gb = .ok out) : List.Sorted wle out := by
  unfold WatsonFromGuidebook at h
  cases h' : transformAll gb gb.Sessions with
  | error e =>
      rw [h'] at h
      simp [Except.map] at h
  | ok l =>
      rw [h'] at h
      simp only [Except.map] at h
      cases h
      exact List.sorted_insertionSort wle l

/-- C4 (counterexample): in `gbFractional` the session starting at
`10:00:00.5` formats as `"...10:00:00.5Z"`, which sorts lexicographically
before `"...10:00:00Z"` (the `.0` session), so the output's parsed start
instants are strictly decreasing — the output is not in chronological
order. -/
theorem C4_counterexample :
    outputStartInstants gbFractional = [212623437600500000000, 212623437600000000000]
    ∧ (212623437600000000000 : Int) < 212623437600500000000 := by
  constructor
  · rfl
  · decide

/-- C4 (witness): the amended claim instantiated at the one-session
snapshot `gbHalfHour`. -/
theorem C4_witness :
    WatsonFromGuidebook gbHalfHour = .ok [wsHalfHour]
    ∧ List.Sorted wle [wsHalfHour] :=
  ⟨rfl, C4_amended gbHalfHour [wsHalfHour] rfl⟩

/-- C5 (amended): whenever both timestamps parse and the nanosecond
difference fits in `int64` (`time.Duration` saturates outside that range,
which four-digit years can exceed), the emitted session's `DurationMinutes`
is the truncating integer division of (end − start) by one minute. -/
theorem C5_amended (gb : GuideBook) (gs : GuidebookSession) (s f : GoTime)
    (hs : parseGuidebookTime gs.StartTime = some s)
    (hf : parseGuidebookTime gs.EndTime = some f)
    (hlo : INT64_MIN ≤ absNs f - absNs s) (hhi : absNs f - absNs s ≤ INT64_MAX) :
    transformSession gb gs = .ok (assembleWatson gb gs s f)
    ∧ (assembleWatson gb gs s f).DurationMinutes = goTdiv (absNs f - absNs s) 60000000000 := by
  refine ⟨transformSession_eq_ok gb gs s f hs hf, ?_⟩
  rw [assembleWatson_DurationMinutes, goSubNs_of_bounds f s hlo hhi]

/-- C5 (counterexample): `gbHugeSpan`'s session spans ≈ 9999 years, whose
nanosecond difference exceeds `int64`; `time.Time.Sub` saturates at the
maximum duration, so the emitted `DurationMinutes` is 153722867 while the
truncating minute division of the true difference is 5258964959 — the claim
fails for such parseable timestamps. -/
theorem C5_counterexample :
    (WatsonFromGuidebook gbHugeSpan).toOption.map (fun l => l.map (fun ws => ws.DurationMinutes))
        = some [153722867]
    ∧ goTdiv ((((parseGuidebookTime "9999-12-31T23:59:59.0+0000").map absNs).getD 0)
          - (((parseGuidebookTime "0001-01-01T00:00:00.0+0000").map absNs).getD 0)) 60000000000
        = 5258964959
    ∧ (153722867 : Int) ≠ 5258964959 := by
  refine ⟨rfl, by decide, by decide⟩

/-- C5 (witness): the amended claim at the spec's example
(start 10:00:00.0, end 10:32:30.0 — truncated to 32 minutes). -/
theorem C5_witness :
    parseGuidebookTime gsHalfHour.StartTime = some ⟨2025, 8, 31, 10, 0, 0, 0⟩
    ∧ parseGuidebookTime gsHalfHour.EndTime = some ⟨2025, 8, 31, 10, 32, 30, 0⟩
    ∧ (transformSession gbHalfHour gsHalfHour
          = .ok (assembleWatson gbHalfHour gsHalfHour ⟨2025, 8, 31, 10, 0, 0, 0⟩ ⟨2025, 8, 31, 10, 32, 30, 0⟩)
      ∧ (assembleWatson gbHalfHour gsHalfHour ⟨2025, 8, 31, 10, 0, 0, 0⟩ ⟨2025, 8, 31, 10, 32, 30, 0⟩).DurationMinutes
          = goTdiv (absNs ⟨2025, 8, 31, 10, 32, 30, 0⟩ - absNs ⟨2025, 8, 31, 10, 0, 0, 0⟩) 60000000000)
    ∧ goTdiv (absNs ⟨2025, 8, 31, 10, 32, 30, 0⟩ - absNs ⟨2025, 8, 31, 10, 0, 0, 0⟩) 60000000000 = 32 :=
  ⟨rfl, rfl,
    C5_amended gbHalfHour gsHalfHour _ _ rfl rfl (by decide) (by decide),
    by decide⟩

/-- C6 (confirmed): the emitted `Locations` is each location id mapped
through the snapshot's location map in order (an unresolved id reads as `""`
and is still appended), and a session with zero location ids gets exactly
`["Discord"]`. -/
theorem C6 (gb : GuideBook) (gs : GuidebookSession) (s f : GoTime)
    (hs : parseGuidebookTime gs.StartTime = some s)
    (hf : parseGuidebookTime gs.EndTime = some f) :
    transformSession gb gs = .ok (assembleWatson gb gs s f)
    ∧ (gs.Locations = [] → (assembleWatson gb gs s f).Locations = ["Discord"])
    ∧ (gs.Locations ≠ [] →
        (assembleWatson gb gs s f).Locations
          = gs.Locations.map (fun loc => mapFindD gb.Locations loc ""))
    ∧ (∀ loc : Int, mapFind? gb.Locations loc = none → mapFindD gb.Locations loc "" = "") := by
  refine ⟨transformSession_eq_ok gb gs s f hs hf, ?_, ?_, ?_⟩
  · intro h
    rw [assembleWatson_Locations, h]
    rfl
  · intro h
    rw [assembleWatson_Locations, if_neg]
    simp [List.isEmpty_iff, h]
  · intro loc h
    simp [mapFindD, h]

/-- C6 (witness): the zero-location session maps to `["Discord"]`, and a
session with locations maps them in order. -/
theorem C6_witness :
    parseGuidebookTime gsNoLoc.StartTime = some ⟨2025, 8, 31, 10, 0, 0, 0⟩
    ∧ parseGuidebookTime gsNoLoc.EndTime = some ⟨2025, 8, 31, 11, 0, 0, 0⟩
    ∧ (transformSession gbNoLocations gsNoLoc
          = .ok (assembleWatson gbNoLocations gsNoLoc ⟨2025, 8, 31, 10, 0, 0, 0⟩ ⟨2025, 8, 31, 11, 0, 0, 0⟩)
      ∧ (gsNoLoc.Locations = [] →
          (assembleWatson gbNoLocations gsNoLoc ⟨2025, 8, 31, 10, 0, 0, 0⟩ ⟨2025, 8, 31, 11, 0, 0, 0⟩).Locations
            = ["Discord"])
      ∧ (gsNoLoc.Locations ≠ [] →
          (assembleWatson gbNoLocations gsNoLoc ⟨2025, 8, 31, 10, 0, 0, 0⟩ ⟨2025, 8, 31, 11, 0, 0, 0⟩).Locations
            = gsNoLoc.Locations.map (fun loc => mapFindD gbNoLocations.Locations loc ""))
      ∧ (∀ loc : Int, mapFind? gbNoLocations.Locations loc = none →
          mapFindD gbNoLocations.Locations loc "" = "")) :=
  ⟨rfl, rfl, C6 gbNoLocations gsNoLoc _ _ rfl rfl⟩

/-- C7 (confirmed): in the fetch loop, a 429 whose `Retry-After` parses
positive sleeps `Retry-After + 1` seconds and re-enters the loop with the
same URL, the same accumulated results and the same success counter; a 429
with an absent/zero header dumps the response headers and fails with the
status and body; any other non-200 fails immediately with the body attached. -/
theorem C7 (respond : Nat → HttpResp) (fuel : Nat) (url : String) (acc : List String)
    (k : Nat) (st : FetchState) (hurl : url ≠ "") :
    ((respond k).status = 429 → 0 < goAtoi (respond k).retryAfterHeader →
      multiFetchLoop respond (fuel + 1) url acc k st =
        multiFetchLoop respond fuel url acc (k + 1)
          { st with events := st.events
              ++ [.request url, .sleepSeconds (goAtoi (respond k).retryAfterHeader + 1)] })
    ∧ ((respond k).status = 429 → goAtoi (respond k).retryAfterHeader ≤ 0 →
      multiFetchLoop respond (fuel + 1) url acc k st =
        some (.error (.badStatus 429 (respond k).body),
              { st with events := st.events ++ [.request url, .dumpHeaders] }))
    ∧ ((respond k).status ≠ 200 → (respond k).status ≠ 429 →
      multiFetchLoop respond (fuel + 1) url acc k st =
        some (.error (.badStatus (respond k).status (respond k).body),
              { st with events := st.events ++ [.request url] })) := by
  refine ⟨?_, ?_, ?_⟩
  · intro h1 h2
    simp only [multiFetchLoop]
    rw [if_neg hurl]
    simp only [h1]
    rw [if_pos (by decide : (429 : Nat) ≠ 200), if_pos ⟨trivial, h2⟩]
    simp [List.append_assoc]
  · intro h1 h2
    simp only [multiFetchLoop]
    rw [if_neg hurl]
    simp only [h1]
    rw [if_pos (by decide : (429 : Nat) ≠ 200),
      if_neg (fun hx => absurd hx.2 (not_lt.mpr h2)), if_pos trivial]
    simp [List.append_assoc]
  · intro h1 h2
    simp only [multiFetchLoop]
    rw [if_neg hurl, if_pos h1, if_neg (fun hx => h2 hx.1), if_neg h2]

/-- C7 (witness): the claim at a responder that rate-limits the first
request with `Retry-After: 2` and serves the page on the retry; the full run
issues exactly one retried request to the same URL after a 3-second sleep
and ends with the success counter at 1. -/
theorem C7_witness :
    ("u" : String) ≠ ""
    ∧ (((respondRetryOnce 0).status = 429 → 0 < goAtoi (respondRetryOnce 0).retryAfterHeader →
        multiFetchLoop respondRetryOnce 3 "u" [] 0 ⟨[], 0⟩ =
          multiFetchLoop respondRetryOnce 2 "u" [] 1
            { events := [] ++ [.request "u", .sleepSeconds (goAtoi (respondRetryOnce 0).retryAfterHeader + 1)],
              counter := 0 })
      ∧ ((respondRetryOnce 0).status = 429 → goAtoi (respondRetryOnce 0).retryAfterHeader ≤ 0 →
        multiFetchLoop respondRetryOnce 3 "u" [] 0 ⟨[], 0⟩ =
          some (.error (.badStatus 429 (respondRetryOnce 0).body),
                { events := [] ++ [.request "u", .dumpHeaders], counter := 0 }))
      ∧ ((respondRetryOnce 0).status ≠ 200 → (respondRetryOnce 0).status ≠ 429 →
        multiFetchLoop respondRetryOnce 3 "u" [] 0 ⟨[], 0⟩ =
          some (.error (.badStatus (respondRetryOnce 0).status (respondRetryOnce 0).body),
                { events := [] ++ [.request "u"], counter := 0 })))
    ∧ multiFetchLoop respondRetryOnce 3 "u" [] 0 ⟨[], 0⟩ =
        some (.ok ["a"], ⟨[.request "u", .sleepSeconds 3, .request "u"], 1⟩) :=
  ⟨by decide, C7 respondRetryOnce 2 "u" [] 0 ⟨[], 0⟩ (by decide), rfl⟩

/-- C8 (confirmed): each assembly step of `loadGuidebook` that fails aborts
the run with its error wrapped in that step's context string, the later
steps' outcomes never being consulted; when all five steps succeed the full
snapshot (including the derived guests-of-honor map) is returned. -/
theorem C8 (o : FetchOutcomes) :
    (∀ e, o.sessions = .error e →
        loadGuidebook o = .error ⟨"failed to load sessions from GuideBook", e⟩)
    ∧ (∀ ss e, o.sessions = .ok ss → o.locations = .error e →
        loadGuidebook o = .error ⟨"failed to load session locations from GuideBook", e⟩)
    ∧ (∀ ss locs e, o.sessions = .ok ss → o.locations = .ok locs → o.tracks = .error e →
        loadGuidebook o = .error ⟨"failed to load schedule tracks from GuideBook", e⟩)
    ∧ (∀ ss locs trks e, o.sessions = .ok ss → o.locations = .ok locs → o.tracks = .ok trks →
        o.lists = .error e →
        loadGuidebook o = .error ⟨"failed to load lists and listitems from GuideBook", e⟩)
    ∧ (∀ ss locs trks ls e, o.sessions = .ok ss → o.locations = .ok locs → o.tracks = .ok trks →
        o.lists = .ok ls → o.links = .error e →
        loadGuidebook o = .error ⟨"failed to load session links from GuideBook", e⟩)
    ∧ (∀ ss locs trks ls lk, o.sessions = .ok ss → o.locations = .ok locs → o.tracks = .ok trks →
        o.lists = .ok ls → o.links = .ok lk →
        loadGuidebook o = .ok (mkSnapshot ss locs trks ls lk)) := by
  refine ⟨?_, ?_, ?_, ?_, ?_, ?_⟩
  · intro e h1
    unfold loadGuidebook
    rw [h1]
  · intro ss e h1 h2
    unfold loadGuidebook
    rw [h1, h2]
  · intro ss locs e h1 h2 h3
    unfold loadGuidebook
    rw [h1, h2, h3]
  · intro ss locs trks e h1 h2 h3 h4
    unfold loadGuidebook
    rw [h1, h2, h3, h4]
  · intro ss locs trks ls e h1 h2 h3 h4 h5
    unfold loadGuidebook
    rw [h1, h2, h3, h4, h5]
  · intro ss locs trks ls lk h1 h2 h3 h4 h5
    unfold loadGuidebook
    rw [h1, h2, h3, h4, h5]

/-- C8 (witness): the claim at outcomes whose sessions step fails with a 500. -/
theorem C8_witness :
    loadGuidebook outcomesSessionsFail
      = .error ⟨"failed to load sessions from GuideBook", .badStatus 500 "boom"⟩ :=
  (C8 outcomesSessionsFail).1 (.badStatus 500 "boom") rfl

/-- C9 (confirmed): after `FetchLists` inverts the item-side membership, a
custom list's member multiset, viewed as a set, is exactly the ids of the
decoded list items whose `CustomLists` contain that list's id — for any
iteration order of the item map, and invariantly under permuting that
order — provided the decoded lists carry no direct member ids (the API does
not supply them). -/
theorem C9 (cls : List CustomList) (entries entries' : List (Int × ListItem)) (w : Int)
    (hcl : ∀ cl ∈ cls, cl.Items = [])
    (hperm : entries.Perm entries') :
    ((mapFindD (fetchListsResult cls entries) w goZeroCustomList).Items.toFinset
      = ((entries.filter (fun e => e.2.CustomLists.contains w)).map Prod.fst).toFinset)
    ∧ ((mapFindD (fetchListsResult cls entries) w goZeroCustomList).Items.toFinset
      = (mapFindD (fetchListsResult cls entries') w goZeroCustomList).Items.toFinset) := by
  have main : ∀ ent : List (Int × ListItem),
      (mapFindD (fetchListsResult cls ent) w goZeroCustomList).Items.toFinset
        = ((ent.filter (fun e => e.2.CustomLists.contains w)).map Prod.fst).toFinset := by
    intro ent
    unfold fetchListsResult
    have h1 := invertMembership_items ent (buildListsMap cls) w
    rw [buildListsMap_items_nil cls hcl w, List.nil_append] at h1
    rw [h1]
    ext a
    simp only [List.mem_toFinset, List.mem_flatMap, List.mem_replicate, List.mem_map,
      List.mem_filter]
    constructor
    · rintro ⟨e, he, hcnt, rfl⟩
      refine ⟨e, ⟨he, ?_⟩, rfl⟩
      exact List.elem_iff.mpr (List.count_pos_iff.mp (Nat.pos_of_ne_zero hcnt))
    · rintro ⟨e, ⟨he, hcont⟩, rfl⟩
      exact ⟨e, he, Nat.pos_iff_ne_zero.mp (List.count_pos_iff.mpr (List.elem_iff.mp hcont)), rfl⟩
  refine ⟨main entries, ?_⟩
  rw [main entries, main entries']
  ext a
  simp only [List.mem_toFinset]
  exact ((hperm.filter _).map _).mem_iff

/-- C9 (witness): the claim at list 10 with items A and B reachable only
through their `CustomLists` membership, under two opposite iteration
orders. -/
theorem C9_witness :
    (∀ cl ∈ [listTen], cl.Items = [])
    ∧ entriesAB.Perm entriesBA
    ∧ (((mapFindD (fetchListsResult [listTen] entriesAB) 10 goZeroCustomList).Items.toFinset
        = ((entriesAB.filter (fun e => e.2.CustomLists.contains 10)).map Prod.fst).toFinset)
      ∧ ((mapFindD (fetchListsResult [listTen] entriesAB) 10 goZeroCustomList).Items.toFinset
        = (mapFindD (fetchListsResult [listTen] entriesBA) 10 goZeroCustomList).Items.toFinset)) :=
  ⟨by decide, by decide, C9 [listTen] entriesAB entriesBA 10 (by decide) (by decide)⟩

/-- C10 (amended): a session whose end parses earlier than its start is
still transformed without error; its `DurationMinutes` is the truncated-
toward-zero minute quotient of the (saturated) signed difference, hence
non-positive — and negative only when the span reaches a whole minute (90
seconds early gives −1, 30 seconds early gives 0, refuting "negative" in
general); the classification warning is unaffected by the timestamps. -/
theorem C10_amended (gb : GuideBook) (gs : GuidebookSession) (s f : GoTime)
    (hs : parseGuidebookTime gs.StartTime = some s)
    (hf : parseGuidebookTime gs.EndTime = some f)
    (hlt : absNs f < absNs s) :
    transformSession gb gs = .ok (assembleWatson gb gs s f)
    ∧ (assembleWatson gb gs s f).DurationMinutes = goTdiv (goSubNs f s) 60000000000
    ∧ (assembleWatson gb gs s f).DurationMinutes ≤ 0
    ∧ (∀ a b : String,
        sessionWarned gb { gs with StartTime := a, EndTime := b } = sessionWarned gb gs) := by
  refine ⟨transformSession_eq_ok gb gs s f hs hf, assembleWatson_DurationMinutes gb gs s f,
    ?_, ?_⟩
  · rw [assembleWatson_DurationMinutes]
    exact goTdiv_nonpos _ _ (goSubNs_nonpos f s (le_of_lt hlt)) (by decide)
  · intro a b
    rw [sessionWarned_eq, sessionWarned_eq]

/-- C10 (counterexample): `gbEndBeforeStart`'s session ends 30 seconds
before it starts (its end instant is strictly smaller), yet the emitted
`DurationMinutes` is 0, not negative — truncation toward zero swallows
sub-minute inversions. -/
theorem C10_counterexample :
    (((parseGuidebookTime "2025-08-31T10:00:00.0+0000").map absNs).getD 0
      < ((parseGuidebookTime "2025-08-31T10:00:30.0+0000").map absNs).getD 0)
    ∧ (WatsonFromGuidebook gbEndBeforeStart).toOption.map
        (fun l => l.map (fun ws => ws.DurationMinutes)) = some [0] := by
  exact ⟨by decide, rfl⟩

/-- C10 (witness): the amended claim at the session ending 90 seconds before
its start, whose duration is −1. -/
theorem C10_witness :
    parseGuidebookTime gsMinus90.StartTime = some ⟨2025, 8, 31, 10, 1, 30, 0⟩
    ∧ parseGuidebookTime gsMinus90.EndTime = some ⟨2025, 8, 31, 10, 0, 0, 0⟩
    ∧ absNs ⟨2025, 8, 31, 10, 0, 0, 0⟩ < absNs ⟨2025, 8, 31, 10, 1, 30, 0⟩
    ∧ (transformSession gbMinus90 gsMinus90
          = .ok (assembleWatson gbMinus90 gsMinus90 ⟨2025, 8, 31, 10, 1, 30, 0⟩ ⟨2025, 8, 31, 10, 0, 0, 0⟩)
      ∧ (assembleWatson gbMinus90 gsMinus90 ⟨2025, 8, 31, 10, 1, 30, 0⟩ ⟨2025, 8, 31, 10, 0, 0, 0⟩).DurationMinutes
          = goTdiv (goSubNs ⟨2025, 8, 31, 10, 0, 0, 0⟩ ⟨2025, 8, 31, 10, 1, 30, 0⟩) 60000000000
      ∧ (assembleWatson gbMinus90 gsMinus90 ⟨2025, 8, 31, 10, 1, 30, 0⟩ ⟨2025, 8, 31, 10, 0, 0, 0⟩).DurationMinutes ≤ 0
      ∧ (∀ a b : String,
          sessionWarned gbMinus90 { gsMinus90 with StartTime := a, EndTime := b }
            = sessionWarned gbMinus90 gsMinus90))
    ∧ goTdiv (goSubNs ⟨2025, 8, 31, 10, 0, 0, 0⟩ ⟨2025, 8, 31, 10, 1, 30, 0⟩) 60000000000 = -1 :=
  ⟨rfl, rfl, by decide,
    C10_amended gbMinus90 gsMinus90 _ _ rfl rfl (by decide), by decide⟩
